import Mathlib

/-!
Shallow embedding of the curiosity container-metrics agent
(`src/container.rs`, `src/main.rs`).

Modelling conventions:
* Rust `u64` counters are `Nat`; the wrapping subtraction `a - b` on
  `u64` is `wrap_sub a b = (a + 2^64 - b) % 2^64` (the release-build
  semantics of the 2015-era compiler the source targets; a checked
  build would abort on exactly the same inputs, which does not change
  any claim settled here).
* Rust `f64` is modelled by `F64`: exact rational arithmetic for
  finite values plus explicit `inf` / `ninf` / `nan` special values
  with IEEE propagation rules for the operations the source uses
  (division, multiplication, `<=` comparison).  IEEE rounding of
  finite results and signed zeros are not modelled; no claim settled
  here depends on them.
* Rust panics (out-of-range indexing, `unwrap` failure) are
  `Option.none` in the pure computations and `Res.crashed` in the
  I/O pipeline; `io::Result` errors are `Res.ioError`.
* A raw container name is the `List Nat` of its UTF-8 bytes
  ('/' is byte 47), because the source manipulates names byte-wise.
* The docker client, an external crate, is an environment record
  (`DockerEnv`) giving the observable results of its calls.
-/

/-- IEEE-754 double values as used by the source: an exact rational for
finite values, plus the special values `+inf`, `-inf` and `nan`.
Rounding of finite results is not modelled. -/
inductive F64 where
  | fin : ℚ → F64
  | inf : F64
  | ninf : F64
  | nan : F64
  deriving DecidableEq

/-- IEEE division on `F64` (sign of zero not modelled: a finite
numerator over a zero denominator follows the sign of the numerator,
which is the only case the source can reach — its numerators are
exact `u64` casts, hence non-negative). -/
def F64.div : F64 → F64 → F64
  | .nan, _ => .nan
  | _, .nan => .nan
  | .fin a, .fin b =>
      if b = 0 then
        if a = 0 then .nan else if 0 < a then .inf else .ninf
      else .fin (a / b)
  | .inf, .fin b => if 0 ≤ b then .inf else .ninf
  | .ninf, .fin b => if 0 ≤ b then .ninf else .inf
  | .fin _, .inf => .fin 0
  | .fin _, .ninf => .fin 0
  | .inf, .inf => .nan
  | .inf, .ninf => .nan
  | .ninf, .inf => .nan
  | .ninf, .ninf => .nan

/-- IEEE multiplication on `F64`. -/
def F64.mul : F64 → F64 → F64
  | .nan, _ => .nan
  | _, .nan => .nan
  | .fin a, .fin b => .fin (a * b)
  | .inf, .inf => .inf
  | .inf, .ninf => .ninf
  | .ninf, .inf => .ninf
  | .ninf, .ninf => .inf
  | .inf, .fin b => if b = 0 then .nan else if 0 < b then .inf else .ninf
  | .fin a, .inf => if a = 0 then .nan else if 0 < a then .inf else .ninf
  | .ninf, .fin b => if b = 0 then .nan else if 0 < b then .ninf else .inf
  | .fin a, .ninf => if a = 0 then .nan else if 0 < a then .ninf else .inf

/-- IEEE `<=` on `F64` as a boolean: any comparison with `nan` is
`false`. -/
def F64.ble : F64 → F64 → Bool
  | .nan, _ => false
  | _, .nan => false
  | .ninf, _ => true
  | _, .ninf => false
  | .fin a, .fin b => decide (a ≤ b)
  | .fin _, .inf => true
  | .inf, .inf => true
  | .inf, .fin _ => false

/-- Wrapping `u64` subtraction `a - b` (two's-complement semantics for
values below `2^64`). -/
def wrap_sub (a b : Nat) : Nat := (a + 2 ^ 64 - b) % 2 ^ 64

/-- `get_cpu_percent` from `src/container.rs` lines 167-177:

    let cpu_val_delta: f64 = (delayed_cpu_val - cpu_val) as f64;
    let system_val_delta: f64 = (delayed_system_val - system_val) as f64;
    let mut percent = (cpu_val_delta / system_val_delta) * cpus as f64 * 100.0;
    if percent <= 0.0 { percent = 0.0; }
    return percent;

The `u64` subtractions wrap, the `as f64` casts are modelled exactly,
and the final clamp is the source's `percent <= 0.0` test. -/
def get_cpu_percent (cpu_val delayed_cpu_val system_val delayed_system_val cpus : Nat) : F64 :=
  let cpu_val_delta : F64 := .fin (wrap_sub delayed_cpu_val cpu_val)
  let system_val_delta : F64 := .fin (wrap_sub delayed_system_val system_val)
  let percent := ((cpu_val_delta.div system_val_delta).mul (.fin cpus)).mul (.fin 100)
  if percent.ble (.fin 0) then .fin 0 else percent

namespace Docker

/-- `docker::stats::Network`: cumulative byte counters. -/
structure NetworkStats where
  rx_bytes : Nat
  tx_bytes : Nat
  deriving DecidableEq

/-- `docker::stats::CpuUsage`: total and per-core cumulative CPU time. -/
structure CpuUsage where
  total_usage : Nat
  percpu_usage : List Nat
  deriving DecidableEq

/-- `docker::stats::CpuStats`. -/
structure CpuStats where
  cpu_usage : CpuUsage
  system_cpu_usage : Nat
  deriving DecidableEq

/-- `docker::stats::MemoryStats`. -/
structure MemoryStats where
  limit : Nat
  usage : Nat
  deriving DecidableEq

/-- `docker::stats::Stats`: one instantaneous snapshot. -/
structure Stats where
  network : NetworkStats
  cpu_stats : CpuStats
  memory_stats : MemoryStats
  deriving DecidableEq

/-- `docker::container::Port`: opaque passthrough data, never inspected
by the source. -/
structure Port where
  raw : Nat
  deriving DecidableEq

/-- `docker::container::Container`: one listed container.  `Names` is
the ordered list of raw names, each as its UTF-8 byte sequence. -/
structure Container where
  Id : String
  Image : String
  Status : String
  Command : String
  Created : Nat
  Names : List (List Nat)
  Ports : List Port
  deriving DecidableEq

end Docker

/-- Output `Network` record (`src/container.rs` lines 200-207). -/
structure Network where
  RxBytes : Nat
  TxBytes : Nat
  RxBytesDelta : Nat
  TxBytesDelta : Nat
  deriving DecidableEq

/-- Output `Cpu` record (`src/container.rs` lines 209-214). -/
structure Cpu where
  TotalUtilization : F64
  PerCpuUtilization : List F64
  deriving DecidableEq

/-- Output `Memory` record (`src/container.rs` lines 216-221). -/
structure Memory where
  Limit : Nat
  Usage : Nat
  deriving DecidableEq

/-- Output `Stats` record (`src/container.rs` lines 192-198); named
`CStats` here because the source shadows the docker `Stats` name. -/
structure CStats where
  Network : Network
  Cpu : Cpu
  Memory : Memory
  deriving DecidableEq

/-- Output `Container` record (`src/container.rs` lines 179-190). -/
structure Container where
  Id : String
  Image : String
  Status : String
  Command : String
  Created : Nat
  Names : List (List Nat)
  Ports : List Docker.Port
  Stats : CStats
  deriving DecidableEq

/-- A source-style `for` loop that pushes one derived value per input
element and aborts (panics) at the first failing element: `some` of
the pushed values in order, or `none` if any element fails. -/
def collect {α β : Type} (f : α → Option β) : List α → Option (List β)
  | [] => some []
  | a :: l =>
    match f a with
    | none => none
    | some b =>
      match collect f l with
      | none => none
      | some bs => some (b :: bs)

/-- The per-core loop of `to_cosmos_container` (`src/container.rs`
lines 108-118): for each index `i` below the baseline core count,
read `percpu_usage[i]` from both snapshots (the read of the advanced
snapshot panics — `none` — when `i` is out of its range) and apply
`get_cpu_percent`. -/
def compute_percpus (stats delayed_stats : Docker.Stats) : Option (List F64) :=
  let cpus := stats.cpu_stats.cpu_usage.percpu_usage.length
  collect (fun i =>
    match stats.cpu_stats.cpu_usage.percpu_usage.get? i,
          delayed_stats.cpu_stats.cpu_usage.percpu_usage.get? i with
    | some val, some delayed_val =>
        some (get_cpu_percent val delayed_val
          stats.cpu_stats.system_cpu_usage
          delayed_stats.cpu_stats.system_cpu_usage cpus)
    | _, _ => none) (List.range cpus)

/-- The body of the names loop of `to_cosmos_container`
(`src/container.rs` lines 134-148): `name.as_bytes()[0]` panics
(`none`) on an empty name; a name whose first byte is `'/'` (47) has
exactly that byte dropped; any other name is passed through. -/
def normalize_name (name : List Nat) : Option (List Nat) :=
  match name with
  | [] => none
  | b :: rest => if b = 47 then some rest else some (b :: rest)

/-- The names loop of `to_cosmos_container` (`src/container.rs` lines
133-149): `normalize_name` applied to every raw name in order; a panic
on any name aborts the whole conversion. -/
def normalize_names (names : List (List Nat)) : Option (List (List Nat)) :=
  collect normalize_name names

/-- Specification-side description of the name normalization: strip
one leading `'/'` byte if present, else pass through.  Used to state
what the source loop computes on non-empty names. -/
def strip_lead (name : List Nat) : List Nat :=
  match name with
  | [] => []
  | b :: rest => if b = 47 then rest else b :: rest

/-- `to_cosmos_container` (`src/container.rs` lines 78-164).  `none`
models a panic (out-of-range per-core index, or empty raw name). -/
def to_cosmos_container (self : Docker.Container)
    (stats delayed_stats : Docker.Stats) : Option Container :=
  let network : Network :=
    { RxBytes := delayed_stats.network.rx_bytes
      TxBytes := delayed_stats.network.tx_bytes
      RxBytesDelta := wrap_sub delayed_stats.network.rx_bytes stats.network.rx_bytes
      TxBytesDelta := wrap_sub delayed_stats.network.tx_bytes stats.network.tx_bytes }
  let memory : Memory :=
    { Limit := delayed_stats.memory_stats.limit
      Usage := delayed_stats.memory_stats.usage }
  let cpus := stats.cpu_stats.cpu_usage.percpu_usage.length
  let total_percent := get_cpu_percent
    stats.cpu_stats.cpu_usage.total_usage
    delayed_stats.cpu_stats.cpu_usage.total_usage
    stats.cpu_stats.system_cpu_usage
    delayed_stats.cpu_stats.system_cpu_usage
    cpus
  do
  let percpus ← compute_percpus stats delayed_stats
  let names ← normalize_names self.Names
  pure
    { Id := self.Id
      Image := self.Image
      Status := self.Status
      Command := self.Command
      Created := self.Created
      Names := names
      Ports := self.Ports
      Stats :=
        { Network := network
          Cpu := { TotalUtilization := total_percent, PerCpuUtilization := percpus }
          Memory := memory } }

/-- The `io::ErrorKind` values the source constructs. -/
inductive IOErrKind where
  | connectionAborted
  | invalidInput
  | notConnected
  deriving DecidableEq

/-- Outcome of a fallible step of the pipeline: a value, an
`io::Result` error (`Err` return), or a Rust panic (`crashed`). -/
inductive Res (α : Type) where
  | ok : α → Res α
  | ioError : IOErrKind → Res α
  | crashed : Res α
  deriving DecidableEq

/-- The external docker client and JSON encoder, as the observable
results of their calls during one cycle.  `get_stats1` and
`get_stats2` are the first and second `docker.get_stats(&container)`
call made for a given container (the source calls the same method
twice in immediate succession to obtain the baseline and advanced
snapshots). -/
structure DockerEnv where
  get_containers : Except String (List Docker.Container)
  get_stats1 : Docker.Container → Except String Docker.Stats
  get_stats2 : Docker.Container → Except String Docker.Stats
  encode : List Container → Except String String

/-- One iteration of the loop in `get_containers_as_str`
(`src/container.rs` lines 18-40): fetch the two snapshots (each
failure becomes a `ConnectionAborted` error return) and convert. -/
def sample_container (env : DockerEnv) (c : Docker.Container) : Res Container :=
  match env.get_stats1 c with
  | .error _ => .ioError .connectionAborted
  | .ok stats =>
    match env.get_stats2 c with
    | .error _ => .ioError .connectionAborted
    | .ok delayed_stats =>
      match to_cosmos_container c stats delayed_stats with
      | none => .crashed
      | some r => .ok r

/-- The normalized record one container contributes when both of its
snapshot fetches succeed and the conversion does not panic. -/
def report_of (env : DockerEnv) (c : Docker.Container) : Option Container :=
  match env.get_stats1 c, env.get_stats2 c with
  | .ok stats, .ok delayed_stats => to_cosmos_container c stats delayed_stats
  | _, _ => none

/-- The accumulation loop of `get_containers_as_str`
(`src/container.rs` lines 17-40), processing the listed containers in
order and stopping at the first error or panic. -/
def build_report_loop (env : DockerEnv) : List Docker.Container → Res (List Container)
  | [] => .ok []
  | c :: cs =>
    match sample_container env c with
    | .ok r =>
      match build_report_loop env cs with
      | .ok rs => .ok (r :: rs)
      | .ioError k => .ioError k
      | .crashed => .crashed
    | .ioError k => .ioError k
    | .crashed => .crashed

/-- `get_containers_as_str` (`src/container.rs` lines 5-53): list the
containers (failure: `ConnectionAborted`), build the report list, then
JSON-encode it (failure: `InvalidInput`). -/
def get_containers_as_str (env : DockerEnv) : Res String :=
  match env.get_containers with
  | .error _ => .ioError .connectionAborted
  | .ok containers =>
    match build_report_loop env containers with
    | .ioError k => .ioError k
    | .crashed => .crashed
    | .ok cosmos_containers =>
      match env.encode cosmos_containers with
      | .error _ => .ioError .invalidInput
      | .ok s => .ok s

theorem wrap_sub_self (a : Nat) : wrap_sub a a = 0 := by
  unfold wrap_sub; omega

theorem wrap_sub_of_le (a b : Nat) (hba : b ≤ a) (ha : a < 2 ^ 64) :
    wrap_sub a b = a - b := by
  unfold wrap_sub; omega

theorem wrap_sub_of_lt (a b : Nat) (hab : a < b) (hb : b < 2 ^ 64) :
    wrap_sub a b = 2 ^ 64 - (b - a) := by
  unfold wrap_sub; omega

theorem F64_div_fin (a b : ℚ) (hb : b ≠ 0) :
    (F64.fin a).div (F64.fin b) = F64.fin (a / b) := by
  simp [F64.div, hb]

theorem F64_mul_fin (a b : ℚ) : (F64.fin a).mul (F64.fin b) = F64.fin (a * b) := rfl

theorem F64_ble_fin (a b : ℚ) : (F64.fin a).ble (F64.fin b) = decide (a ≤ b) := rfl

/-- What `get_cpu_percent` returns when neither `u64` subtraction
wraps and the system counter strictly advanced: the exact spec
formula `(cpu_delta / system_delta) * cpus * 100`. -/
theorem get_cpu_percent_formula (b_cpu a_cpu b_sys a_sys cpus : Nat)
    (h1 : b_cpu ≤ a_cpu) (h2 : b_sys < a_sys)
    (h3 : a_cpu < 2 ^ 64) (h4 : a_sys < 2 ^ 64) :
    get_cpu_percent b_cpu a_cpu b_sys a_sys cpus
      = F64.fin (((a_cpu : ℚ) - (b_cpu : ℚ)) / ((a_sys : ℚ) - (b_sys : ℚ)) * (cpus : ℚ) * 100) := by
  have hcq : ((wrap_sub a_cpu b_cpu : Nat) : ℚ) = (a_cpu : ℚ) - (b_cpu : ℚ) := by
    rw [wrap_sub_of_le a_cpu b_cpu h1 h3]; push_cast [h1]; ring
  have hsq : ((wrap_sub a_sys b_sys : Nat) : ℚ) = (a_sys : ℚ) - (b_sys : ℚ) := by
    rw [wrap_sub_of_le a_sys b_sys h2.le h4]; push_cast [h2.le]; ring
  have hb : (b_sys : ℚ) < (a_sys : ℚ) := by exact_mod_cast h2
  have hc : (b_cpu : ℚ) ≤ (a_cpu : ℚ) := by exact_mod_cast h1
  have hspos : (0 : ℚ) < (a_sys : ℚ) - (b_sys : ℚ) := by linarith
  have hq : (0 : ℚ) ≤ ((a_cpu : ℚ) - (b_cpu : ℚ)) / ((a_sys : ℚ) - (b_sys : ℚ)) * (cpus : ℚ) * 100 := by
    have hnum : (0 : ℚ) ≤ (a_cpu : ℚ) - (b_cpu : ℚ) := by linarith
    exact mul_nonneg (mul_nonneg (div_nonneg hnum hspos.le) (Nat.cast_nonneg cpus)) (by norm_num)
  simp only [get_cpu_percent, hcq, hsq, F64_div_fin _ _ (ne_of_gt hspos), F64_mul_fin,
    F64_ble_fin]
  by_cases hle : ((a_cpu : ℚ) - (b_cpu : ℚ)) / ((a_sys : ℚ) - (b_sys : ℚ)) * (cpus : ℚ) * 100 ≤ 0
  · have h0 : ((a_cpu : ℚ) - (b_cpu : ℚ)) / ((a_sys : ℚ) - (b_sys : ℚ)) * (cpus : ℚ) * 100 = 0 :=
      le_antisymm hle hq
    simp [hle, h0]
  · simp [hle]

/-- `to_cosmos_container` written as explicit `Option` plumbing. -/
theorem to_cosmos_container_eq (c : Docker.Container) (s d : Docker.Stats) :
    to_cosmos_container c s d
      = (compute_percpus s d).bind (fun percpus =>
          (normalize_names c.Names).bind (fun names =>
            some
              { Id := c.Id, Image := c.Image, Status := c.Status, Command := c.Command,
                Created := c.Created, Names := names, Ports := c.Ports,
                Stats :=
                  { Network :=
                      { RxBytes := d.network.rx_bytes, TxBytes := d.network.tx_bytes,
                        RxBytesDelta := wrap_sub d.network.rx_bytes s.network.rx_bytes,
                        TxBytesDelta := wrap_sub d.network.tx_bytes s.network.tx_bytes },
                    Cpu :=
                      { TotalUtilization := get_cpu_percent
                          s.cpu_stats.cpu_usage.total_usage
                          d.cpu_stats.cpu_usage.total_usage
                          s.cpu_stats.system_cpu_usage
                          d.cpu_stats.system_cpu_usage
                          s.cpu_stats.cpu_usage.percpu_usage.length,
                        PerCpuUtilization := percpus },
                    Memory := { Limit := d.memory_stats.limit,
                                Usage := d.memory_stats.usage } } })) := rfl

/-- Every field of a successful conversion, in terms of the inputs. -/
theorem to_cosmos_fields (c : Docker.Container) (s d : Docker.Stats) (r : Container)
    (h : to_cosmos_container c s d = some r) :
    compute_percpus s d = some r.Stats.Cpu.PerCpuUtilization
  ∧ normalize_names c.Names = some r.Names
  ∧ r.Stats.Cpu.TotalUtilization = get_cpu_percent
      s.cpu_stats.cpu_usage.total_usage d.cpu_stats.cpu_usage.total_usage
      s.cpu_stats.system_cpu_usage d.cpu_stats.system_cpu_usage
      s.cpu_stats.cpu_usage.percpu_usage.length
  ∧ r.Stats.Network.RxBytes = d.network.rx_bytes
  ∧ r.Stats.Network.TxBytes = d.network.tx_bytes
  ∧ r.Stats.Network.RxBytesDelta = wrap_sub d.network.rx_bytes s.network.rx_bytes
  ∧ r.Stats.Network.TxBytesDelta = wrap_sub d.network.tx_bytes s.network.tx_bytes := by
  rw [to_cosmos_container_eq] at h
  cases hp : compute_percpus s d with
  | none => rw [hp] at h; simp at h
  | some ps =>
    rw [hp] at h
    cases hn : normalize_names c.Names with
    | none => rw [hn] at h; simp at h
    | some ns =>
      rw [hn] at h
      simp only [Option.some_bind] at h
      obtain rfl := Option.some.inj h
      exact ⟨rfl, rfl, rfl, rfl, rfl, rfl, rfl⟩

theorem normalize_name_of_ne_nil (name : List Nat) (h : name ≠ []) :
    normalize_name name = some (strip_lead name) := by
  cases name with
  | nil => exact absurd rfl h
  | cons b rest =>
    by_cases hb : b = 47 <;> simp [normalize_name, strip_lead, hb]

theorem collect_none_of_mem {α β : Type} (f : α → Option β) (l : List α) (x : α)
    (hx : x ∈ l) (hfx : f x = none) : collect f l = none := by
  induction l with
  | nil => cases hx
  | cons a l ih =>
    rcases List.mem_cons.mp hx with h | h
    · simp [collect, ← h, hfx]
    · cases ha : f a with
      | none => simp [collect, ha]
      | some b => simp [collect, ha, ih h]

theorem collect_some_of_all {α β : Type} (f : α → Option β) (l : List α)
    (hall : ∀ x ∈ l, (f x).isSome) :
    ∃ ys, collect f l = some ys ∧ ys.length = l.length := by
  induction l with
  | nil => exact ⟨[], rfl, rfl⟩
  | cons a l ih =>
    obtain ⟨b, hb⟩ := Option.isSome_iff_exists.mp (hall a (List.mem_cons_self a l))
    obtain ⟨ys, hys, hlen⟩ := ih (fun x hx => hall x (List.mem_cons_of_mem a hx))
    exact ⟨b :: ys, by simp [collect, hb, hys], by simp [hlen]⟩

theorem collect_some_length {α β : Type} (f : α → Option β) (l : List α) (ys : List β)
    (h : collect f l = some ys) : ys.length = l.length := by
  induction l generalizing ys with
  | nil => simp [collect] at h; simp [← h]
  | cons a l ih =>
    cases ha : f a with
    | none => simp [collect, ha] at h
    | some b =>
      cases hl : collect f l with
      | none => simp [collect, ha, hl] at h
      | some zs =>
        simp only [collect, ha, hl] at h
        obtain rfl := Option.some.inj h.symm
        simp [ih zs hl]

theorem normalize_names_eq_map (names : List (List Nat))
    (hall : ∀ n ∈ names, n ≠ []) :
    normalize_names names = some (names.map strip_lead) := by
  induction names with
  | nil => rfl
  | cons n ns ih =>
    have hn : n ≠ [] := hall n (List.mem_cons_self n ns)
    have hns : ∀ m ∈ ns, m ≠ [] := fun m hm => hall m (List.mem_cons_of_mem n hm)
    have := ih hns
    simp [normalize_names, collect, normalize_name_of_ne_nil n hn,
      normalize_names] at this ⊢
    simp [this]

theorem normalize_names_none_of_mem_nil (names : List (List Nat))
    (h : [] ∈ names) :
    normalize_names names = none := by
  unfold normalize_names
  exact collect_none_of_mem normalize_name names [] h rfl

theorem sample_container_ok (env : DockerEnv) (c : Docker.Container) (r : Container) :
    sample_container env c = .ok r ↔ report_of env c = some r := by
  unfold sample_container report_of
  cases env.get_stats1 c with
  | error e => simp
  | ok stats =>
    cases env.get_stats2 c with
    | error e => simp
    | ok delayed_stats =>
      cases h3 : to_cosmos_container c stats delayed_stats <;> simp [h3]

theorem sample_container_err (env : DockerEnv) (c : Docker.Container)
    (h : (∃ e, env.get_stats1 c = .error e) ∨ (∃ e, env.get_stats2 c = .error e)) :
    sample_container env c = .ioError .connectionAborted := by
  unfold sample_container
  cases h1 : env.get_stats1 c with
  | error e => rfl
  | ok stats =>
    cases h2 : env.get_stats2 c with
    | error e => rfl
    | ok delayed_stats =>
      rcases h with ⟨e, he⟩ | ⟨e, he⟩
      · rw [h1] at he; cases he
      · rw [h2] at he; cases he

/-- The loop preserves the listed order: on total success it returns
one record per listed container, `i`-th record from `i`-th container. -/
theorem build_report_loop_ok (env : DockerEnv) (cs : List Docker.Container)
    (hall : ∀ c ∈ cs, (report_of env c).isSome) :
    ∃ rs : List Container,
      build_report_loop env cs = .ok rs
      ∧ rs.length = cs.length
      ∧ ∀ i : Nat, rs.get? i = (cs.get? i).bind (report_of env) := by
  induction cs with
  | nil =>
    refine ⟨[], rfl, rfl, fun i => ?_⟩
    cases i <;> rfl
  | cons c cs ih =>
    obtain ⟨r, hr⟩ := Option.isSome_iff_exists.mp (hall c (List.mem_cons_self c cs))
    obtain ⟨rs, hloop, hlen, hget⟩ := ih (fun x hx => hall x (List.mem_cons_of_mem c hx))
    refine ⟨r :: rs, ?_, by simp [hlen], fun i => ?_⟩
    · simp [build_report_loop, (sample_container_ok env c r).mpr hr, hloop]
    · cases i with
      | zero => simp [hr]
      | succ i => simpa using hget i

/-- If any listed container's sampling errors out, the loop never
returns a report list. -/
theorem build_report_loop_err (env : DockerEnv) (cs : List Docker.Container)
    (c : Docker.Container) (hc : c ∈ cs)
    (hfail : sample_container env c = .ioError .connectionAborted) :
    ∀ rs : List Container, build_report_loop env cs ≠ .ok rs := by
  induction cs with
  | nil => cases hc
  | cons a cs ih =>
    intro rs
    rcases List.mem_cons.mp hc with h | h
    · rw [← h]
      simp [build_report_loop, hfail]
    · cases ha : sample_container env a with
      | ok r =>
        simp only [build_report_loop, ha]
        cases hl : build_report_loop env cs with
        | ok rs2 => exact absurd hl (ih h rs2)
        | ioError k => simp
        | crashed => simp
      | ioError k => simp [build_report_loop, ha]
      | crashed => simp [build_report_loop, ha]

/-- C1: for every (baseline, advanced) snapshot pair with
`advanced.cpu_total ≥ baseline.cpu_total` and
`advanced.system_total > baseline.system_total` (counters being `u64`
values), the computed aggregate CPU percent equals
`(cpu_delta / system_delta) * core_count * 100`; `to_cosmos_container`
passes the length of the baseline snapshot's per-core sequence as the
core count; and the spec's end-to-end scenario (baseline
cpu=1000/sys=50000, advanced cpu=1500/sys=50500, 4 cores) yields
exactly 400. -/
theorem C1_cpu_percent_is_delta_formula
    (b_cpu a_cpu b_sys a_sys cpus : Nat)
    (h1 : b_cpu ≤ a_cpu) (h2 : b_sys < a_sys)
    (h3 : a_cpu < 2 ^ 64) (h4 : a_sys < 2 ^ 64) :
    get_cpu_percent b_cpu a_cpu b_sys a_sys cpus
        = F64.fin (((a_cpu : ℚ) - (b_cpu : ℚ)) / ((a_sys : ℚ) - (b_sys : ℚ)) * (cpus : ℚ) * 100)
      ∧ (∀ (c : Docker.Container) (s d : Docker.Stats) (r : Container),
          to_cosmos_container c s d = some r →
          r.Stats.Cpu.TotalUtilization = get_cpu_percent
            s.cpu_stats.cpu_usage.total_usage d.cpu_stats.cpu_usage.total_usage
            s.cpu_stats.system_cpu_usage d.cpu_stats.system_cpu_usage
            s.cpu_stats.cpu_usage.percpu_usage.length)
      ∧ get_cpu_percent 1000 1500 50000 50500 4 = F64.fin 400 := by
  refine ⟨get_cpu_percent_formula _ _ _ _ _ h1 h2 h3 h4, ?_, ?_⟩
  · intro c s d r hr
    exact (to_cosmos_fields c s d r hr).2.2.1
  · norm_num [get_cpu_percent, wrap_sub, F64.div, F64.mul, F64.ble]

/-- Witness for C1 at the spec's end-to-end scenario. -/
theorem C1_cpu_percent_is_delta_formula_witness :
    get_cpu_percent 1000 1500 50000 50500 4 = F64.fin 400 :=
  (C1_cpu_percent_is_delta_formula 1000 1500 50000 50500 4
    (by norm_num) (by norm_num) (by norm_num) (by norm_num)).2.2

/-- C2 counterexample: with equal system totals (`system_delta = 0`)
and a positive cpu delta the source computes `500/0 = +inf`, which the
`percent <= 0.0` clamp does not catch, so the output is `+inf`, not
the claimed `0`; there is no zero-denominator branch. -/
theorem C2_zero_system_delta_counterexample :
    get_cpu_percent 1000 1500 50000 50000 4 = F64.inf
      ∧ F64.inf ≠ F64.fin 0 := by
  exact ⟨by decide, by decide⟩

/-- C2 (amended): when the advanced and baseline system totals are
equal, `get_cpu_percent` returns `nan` when the cpu delta is zero
(`0/0`) and `+inf` when the cpu delta is non-zero and the core count
is positive — never `0`, because the source has no zero-denominator
branch and the `percent <= 0.0` clamp is false on `nan` and `+inf`. -/
theorem C2_zero_system_delta_amended (cpu d_cpu sys cpus : Nat) (hcpus : 0 < cpus) :
    (wrap_sub d_cpu cpu = 0 → get_cpu_percent cpu d_cpu sys sys cpus = F64.nan)
  ∧ (wrap_sub d_cpu cpu ≠ 0 → get_cpu_percent cpu d_cpu sys sys cpus = F64.inf) := by
  constructor
  · intro h
    simp only [get_cpu_percent, wrap_sub_self, h]
    norm_num [F64.div, F64.mul, F64.ble]
  · intro h
    have hpos : (0 : ℚ) < ((wrap_sub d_cpu cpu : Nat) : ℚ) := by
      exact_mod_cast Nat.pos_of_ne_zero h
    have hcq : (0 : ℚ) < (cpus : ℚ) := by exact_mod_cast hcpus
    simp only [get_cpu_percent, wrap_sub_self]
    norm_num [F64.div, F64.mul, F64.ble, hpos, hpos.ne', hcq, hcq.ne']

/-- Witness for C2 (amended) at the failing input: equal system totals
with zero and with positive cpu delta. -/
theorem C2_zero_system_delta_amended_witness :
    get_cpu_percent 1000 1000 50000 50000 4 = F64.nan
      ∧ get_cpu_percent 1000 1500 50000 50000 4 = F64.inf :=
  ⟨(C2_zero_system_delta_amended 1000 1000 50000 4 (by norm_num)).1 (by decide),
   (C2_zero_system_delta_amended 1000 1500 50000 4 (by norm_num)).2 (by decide)⟩

/-- C3: the claim says a regressed cpu counter is clamped to exactly
`0`; instead the unsigned `u64` subtraction wraps (baseline cpu=1500,
advanced cpu=1000, system 50000→50500, 1 core), so the source returns
the astronomically large positive percent `(2^64 - 500)/5`, which the
`percent <= 0.0` clamp — written precisely to catch regressions — can
never fire on.  This evaluates the code at the failing input. -/
theorem C3_counter_regression_not_clamped :
    get_cpu_percent 1500 1000 50000 50500 1 = F64.fin ((2 ^ 64 - 500) / 5)
      ∧ F64.fin ((2 ^ 64 - 500 : ℚ) / 5) ≠ F64.fin 0 := by
  constructor
  · norm_num [get_cpu_percent, wrap_sub, F64.div, F64.mul, F64.ble]
  · simp only [ne_eq, F64.fin.injEq]
    norm_num

/-- Baseline snapshot for the C4 counterexample: rx counter at 200. -/
def c4_baseline : Docker.Stats :=
  { network := { rx_bytes := 200, tx_bytes := 0 }
    cpu_stats := { cpu_usage := { total_usage := 0, percpu_usage := [] }, system_cpu_usage := 0 }
    memory_stats := { limit := 0, usage := 0 } }

/-- Advanced snapshot for the C4 counterexample: rx counter reset to
180 (below the baseline). -/
def c4_advanced : Docker.Stats :=
  { network := { rx_bytes := 180, tx_bytes := 0 }
    cpu_stats := { cpu_usage := { total_usage := 0, percpu_usage := [] }, system_cpu_usage := 0 }
    memory_stats := { limit := 0, usage := 0 } }

/-- Container descriptor for the C4 counterexample. -/
def c4_container : Docker.Container :=
  { Id := "web", Image := "img", Status := "up", Command := "cmd", Created := 0,
    Names := [[97]], Ports := [] }

/-- The report the source produces for the C4 counterexample inputs. -/
def c4_report : Container :=
  { Id := "web", Image := "img", Status := "up", Command := "cmd", Created := 0,
    Names := [[97]], Ports := [],
    Stats :=
      { Network := { RxBytes := 180, TxBytes := 0, RxBytesDelta := 2 ^ 64 - 20, TxBytesDelta := 0 },
        Cpu := { TotalUtilization := F64.nan, PerCpuUtilization := [] },
        Memory := { Limit := 0, Usage := 0 } } }

/-- C4 counterexample: the spec scenario baseline rx=200, advanced
rx=180 (counter reset) claims a reported rx delta of 0; the source
instead reports the wrapped `u64` difference `2^64 - 20`.  (The
absolute rx value 180 from the advanced snapshot is as claimed.) -/
theorem C4_network_delta_counterexample :
    (to_cosmos_container c4_container c4_baseline c4_advanced).map
        (fun r => (r.Stats.Network.RxBytesDelta, r.Stats.Network.RxBytes))
      = some (2 ^ 64 - 20, 180)
      ∧ 2 ^ 64 - 20 ≠ 0 := by
  exact ⟨by decide, by decide⟩

/-- C4 (amended): the reported network deltas are the wrapping `u64`
differences `advanced − baseline` — equal counters give 0 and an
in-range increase gives the true delta, but a reset (advanced below
baseline) wraps to `2^64 − (baseline − advanced)` instead of being
clamped to 0 — while the absolute rx/tx values reported alongside are
taken from the advanced snapshot. -/
theorem C4_network_deltas_amended (c : Docker.Container) (s d : Docker.Stats) (r : Container)
    (h : to_cosmos_container c s d = some r) :
    r.Stats.Network.RxBytes = d.network.rx_bytes
  ∧ r.Stats.Network.TxBytes = d.network.tx_bytes
  ∧ r.Stats.Network.RxBytesDelta = wrap_sub d.network.rx_bytes s.network.rx_bytes
  ∧ r.Stats.Network.TxBytesDelta = wrap_sub d.network.tx_bytes s.network.tx_bytes
  ∧ (d.network.rx_bytes = s.network.rx_bytes → r.Stats.Network.RxBytesDelta = 0)
  ∧ (s.network.rx_bytes ≤ d.network.rx_bytes → d.network.rx_bytes < 2 ^ 64 →
      r.Stats.Network.RxBytesDelta = d.network.rx_bytes - s.network.rx_bytes)
  ∧ (d.network.rx_bytes < s.network.rx_bytes → s.network.rx_bytes < 2 ^ 64 →
      r.Stats.Network.RxBytesDelta = 2 ^ 64 - (s.network.rx_bytes - d.network.rx_bytes)) := by
  obtain ⟨-, -, -, hrx, htx, hrxd, htxd⟩ := to_cosmos_fields c s d r h
  refine ⟨hrx, htx, hrxd, htxd, ?_, ?_, ?_⟩
  · intro he
    rw [hrxd, he, wrap_sub_self]
  · intro hle hb
    rw [hrxd, wrap_sub_of_le _ _ hle hb]
  · intro hlt hb
    rw [hrxd, wrap_sub_of_lt _ _ hlt hb]

/-- Witness for C4 (amended) at the counterexample inputs. -/
theorem C4_network_deltas_amended_witness :
    c4_report.Stats.Network.RxBytes = 180
      ∧ c4_report.Stats.Network.RxBytesDelta = 2 ^ 64 - 20 := by
  have h := C4_network_deltas_amended c4_container c4_baseline c4_advanced c4_report (by decide)
  refine ⟨h.1, ?_⟩
  rw [h.2.2.2.2.2.2 (by decide) (by decide)]
  decide

/-- C5 counterexample: baseline cpu=0/sys=0 with one core, advanced
cpu=1000/sys=1 satisfies the claim's hypotheses
(`advanced.system_total > baseline.system_total`,
`advanced.cpu_total ≥ baseline.cpu_total`) yet the computed percent is
100000, far outside the claimed interval `[0, 100 * core_count] =
[0, 100]` — nothing bounds the container cpu delta by the system
delta. -/
theorem C5_cpu_percent_range_counterexample :
    get_cpu_percent 0 1000 0 1 1 = F64.fin 100000
      ∧ ¬ ((100000 : ℚ) ≤ 100 * 1) := by
  constructor
  · norm_num [get_cpu_percent, wrap_sub, F64.div, F64.mul, F64.ble]
  · norm_num

/-- C5 (amended): under the claim's hypotheses the computed aggregate
percent is a finite non-negative rational, and it lies in
`[0, 100 * core_count]` under the additional hypothesis that the cpu
delta does not exceed the system delta (without which no upper bound
holds). -/
theorem C5_cpu_percent_range_amended
    (b_cpu a_cpu b_sys a_sys cpus : Nat)
    (h1 : b_cpu ≤ a_cpu) (h2 : b_sys < a_sys)
    (h3 : a_cpu < 2 ^ 64) (h4 : a_sys < 2 ^ 64) :
    ∃ q : ℚ, get_cpu_percent b_cpu a_cpu b_sys a_sys cpus = F64.fin q
      ∧ 0 ≤ q
      ∧ (a_cpu - b_cpu ≤ a_sys - b_sys → q ≤ 100 * (cpus : ℚ)) := by
  refine ⟨((a_cpu : ℚ) - (b_cpu : ℚ)) / ((a_sys : ℚ) - (b_sys : ℚ)) * (cpus : ℚ) * 100,
    get_cpu_percent_formula _ _ _ _ _ h1 h2 h3 h4, ?_, ?_⟩
  all_goals
    have hb : (b_sys : ℚ) < (a_sys : ℚ) := by exact_mod_cast h2
    have hc : (b_cpu : ℚ) ≤ (a_cpu : ℚ) := by exact_mod_cast h1
    have hspos : (0 : ℚ) < (a_sys : ℚ) - (b_sys : ℚ) := by linarith
    have hnum : (0 : ℚ) ≤ (a_cpu : ℚ) - (b_cpu : ℚ) := by linarith
  · exact mul_nonneg (mul_nonneg (div_nonneg hnum hspos.le) (Nat.cast_nonneg cpus)) (by norm_num)
  · intro hle
    have hleq : (a_cpu : ℚ) - (b_cpu : ℚ) ≤ (a_sys : ℚ) - (b_sys : ℚ) := by
      have := (Nat.cast_le (α := ℚ)).mpr hle
      push_cast [h1, h2.le] at this
      linarith
    have hdiv : ((a_cpu : ℚ) - (b_cpu : ℚ)) / ((a_sys : ℚ) - (b_sys : ℚ)) ≤ 1 :=
      div_le_one_of_le₀ hleq hspos.le
    calc ((a_cpu : ℚ) - (b_cpu : ℚ)) / ((a_sys : ℚ) - (b_sys : ℚ)) * (cpus : ℚ) * 100
        ≤ 1 * (cpus : ℚ) * 100 := by
          have h0 : (0 : ℚ) ≤ (cpus : ℚ) := Nat.cast_nonneg cpus
          nlinarith
      _ = 100 * (cpus : ℚ) := by ring

/-- Witness for C5 (amended) at the spec's end-to-end scenario, where
cpu delta 500 ≤ system delta 500 and the percent 400 ≤ 100 * 4. -/
theorem C5_cpu_percent_range_amended_witness :
    get_cpu_percent 1000 1500 50000 50500 4 = F64.fin 400
      ∧ (0 : ℚ) ≤ 400 ∧ (400 : ℚ) ≤ 100 * (4 : ℚ) := by
  obtain ⟨q, hq, h0, hle⟩ := C5_cpu_percent_range_amended 1000 1500 50000 50500 4
    (by norm_num) (by norm_num) (by norm_num) (by norm_num)
  have heval : get_cpu_percent 1000 1500 50000 50500 4 = F64.fin 400 := by
    norm_num [get_cpu_percent, wrap_sub, F64.div, F64.mul, F64.ble]
  obtain rfl : q = 400 := F64.fin.inj (hq.symm.trans heval)
  exact ⟨heval, h0, by simpa using hle (by norm_num)⟩

/-- C6: on every non-empty raw name the source's normalization removes
exactly one leading `'/'` byte (47) when present and passes the name
through unchanged otherwise (`strip_lead`); it is idempotent on names
without a leading separator; `"/web-1"` (bytes `47,119,101,98,45,49`)
maps to `"web-1"` and `"web-1"` maps to itself; and over a container's
name sequence it is applied to every name independently with order
preserved (`List.map`). -/
theorem C6_name_normalization (name : List Nat) (names : List (List Nat))
    (hname : name ≠ []) (hall : ∀ n ∈ names, n ≠ []) :
    normalize_name name = some (strip_lead name)
  ∧ (∀ rest, name = 47 :: rest → strip_lead name = rest)
  ∧ (name.head? ≠ some 47 → strip_lead name = name)
  ∧ (name.head? ≠ some 47 →
      (normalize_name name).bind normalize_name = normalize_name name)
  ∧ normalize_name (47 :: [119, 101, 98, 45, 49]) = some [119, 101, 98, 45, 49]
  ∧ normalize_name [119, 101, 98, 45, 49] = some [119, 101, 98, 45, 49]
  ∧ normalize_names names = some (names.map strip_lead) := by
  refine ⟨normalize_name_of_ne_nil name hname, ?_, ?_, ?_, by decide, by decide,
    normalize_names_eq_map names hall⟩
  · rintro rest rfl
    simp [strip_lead]
  · intro hhead
    cases name with
    | nil => exact absurd rfl hname
    | cons b rest =>
      have hb : b ≠ 47 := by simpa using hhead
      simp [strip_lead, hb]
  · intro hhead
    cases name with
    | nil => exact absurd rfl hname
    | cons b rest =>
      have hb : b ≠ 47 := by simpa using hhead
      simp [normalize_name, hb]

/-- Witness for C6 on the spec's example names. -/
theorem C6_name_normalization_witness :
    normalize_name [47, 119, 101, 98, 45, 49] = some [119, 101, 98, 45, 49]
      ∧ normalize_name [119, 101, 98, 45, 49] = some [119, 101, 98, 45, 49]
      ∧ normalize_names [[47, 119, 101, 98, 45, 49], [119, 101, 98, 45, 49]]
          = some [[119, 101, 98, 45, 49], [119, 101, 98, 45, 49]] := by
  have h := C6_name_normalization [47, 119, 101, 98, 45, 49]
    [[47, 119, 101, 98, 45, 49], [119, 101, 98, 45, 49]] (by decide) (by decide)
  exact ⟨h.2.2.2.2.1, h.2.2.2.2.2.1, h.2.2.2.2.2.2.trans (by decide)⟩

/-- A fixed snapshot for the C7/C8 witness environments: empty
per-core list and zero counters, so every derived metric is a closed
constant. -/
def w_stats : Docker.Stats :=
  { network := { rx_bytes := 100, tx_bytes := 100 }
    cpu_stats := { cpu_usage := { total_usage := 0, percpu_usage := [] }, system_cpu_usage := 0 }
    memory_stats := { limit := 0, usage := 0 } }

/-- A listed container with the given id for the C7/C8 witnesses. -/
def w_container (id : String) : Docker.Container :=
  { Id := id, Image := "img", Status := "up", Command := "cmd", Created := 0,
    Names := [[47, 97]], Ports := [] }

/-- The record `w_container id` contributes under `w_stats` sampling. -/
def w_report (id : String) : Container :=
  { Id := id, Image := "img", Status := "up", Command := "cmd", Created := 0,
    Names := [[97]], Ports := [],
    Stats :=
      { Network := { RxBytes := 100, TxBytes := 100, RxBytesDelta := 0, TxBytesDelta := 0 },
        Cpu := { TotalUtilization := F64.nan, PerCpuUtilization := [] },
        Memory := { Limit := 0, Usage := 0 } } }

/-- Environment for the C7 witness: the lister returns containers
`[A, B, C]` and every call succeeds. -/
def w_env : DockerEnv :=
  { get_containers := .ok [w_container "A", w_container "B", w_container "C"]
    get_stats1 := fun _ => .ok w_stats
    get_stats2 := fun _ => .ok w_stats
    encode := fun _ => .ok "[]" }

/-- C7: whenever the lister returns `cs` and every listed container
samples and converts successfully, the assembled report is exactly one
record per listed container in the listed order (the `i`-th record is
the record of the `i`-th container), and that exact list is what gets
encoded: success of the encoder yields its output, failure yields the
`InvalidInput` error. -/
theorem C7_report_order (env : DockerEnv) (cs : List Docker.Container)
    (hlist : env.get_containers = .ok cs)
    (hall : ∀ c ∈ cs, (report_of env c).isSome) :
    ∃ rs : List Container,
      build_report_loop env cs = .ok rs
      ∧ rs.length = cs.length
      ∧ (∀ i : Nat, rs.get? i = (cs.get? i).bind (report_of env))
      ∧ (∀ s, env.encode rs = .ok s → get_containers_as_str env = .ok s)
      ∧ (∀ e, env.encode rs = .error e →
          get_containers_as_str env = .ioError .invalidInput) := by
  obtain ⟨rs, hloop, hlen, hget⟩ := build_report_loop_ok env cs hall
  refine ⟨rs, hloop, hlen, hget, ?_, ?_⟩
  · intro s hs
    simp [get_containers_as_str, hlist, hloop, hs]
  · intro e he
    simp [get_containers_as_str, hlist, hloop, he]

/-- Witness for C7: three containers `A, B, C` produce exactly the
three corresponding records in discovery order, and the encoded cycle
succeeds. -/
theorem C7_report_order_witness :
    build_report_loop w_env [w_container "A", w_container "B", w_container "C"]
        = .ok [w_report "A", w_report "B", w_report "C"]
      ∧ get_containers_as_str w_env = .ok "[]" := by
  obtain ⟨rs, h1, h2, h3, h4, h5⟩ := C7_report_order w_env
    [w_container "A", w_container "B", w_container "C"] rfl (by decide)
  exact ⟨by decide, by decide⟩

/-- Environment for the C8 witness in which listing the containers
fails. -/
def c8_env_list_fail : DockerEnv :=
  { get_containers := .error "connection refused"
    get_stats1 := fun _ => .ok w_stats
    get_stats2 := fun _ => .ok w_stats
    encode := fun _ => .ok "[]" }

/-- Environment for the C8 witness in which the first stats sample of
the only listed container fails. -/
def c8_env_stats_fail : DockerEnv :=
  { get_containers := .ok [w_container "A"]
    get_stats1 := fun _ => .error "connection refused"
    get_stats2 := fun _ => .ok w_stats
    encode := fun _ => .ok "[]" }

/-- Environment for the C8 witness in which encoding the report
fails. -/
def c8_env_encode_fail : DockerEnv :=
  { get_containers := .ok [w_container "A"]
    get_stats1 := fun _ => .ok w_stats
    get_stats2 := fun _ => .ok w_stats
    encode := fun _ => .error "encoding is failed" }

/-- C8: every failure mode of a cycle yields an error and never a
report string: a listing failure returns `ConnectionAborted` at once;
a failed stats sample (either of the two) for any listed container
means no `Ok` string is ever produced; and an encoder failure after a
successful loop returns `InvalidInput`. -/
theorem C8_fail_fast (env : DockerEnv) :
    (∀ e, env.get_containers = .error e →
      get_containers_as_str env = .ioError .connectionAborted)
  ∧ (∀ cs c, env.get_containers = .ok cs → c ∈ cs →
      ((∃ e, env.get_stats1 c = .error e) ∨ (∃ e, env.get_stats2 c = .error e)) →
      ∀ s, get_containers_as_str env ≠ .ok s)
  ∧ (∀ cs rs e, env.get_containers = .ok cs → build_report_loop env cs = .ok rs →
      env.encode rs = .error e →
      get_containers_as_str env = .ioError .invalidInput) := by
  refine ⟨?_, ?_, ?_⟩
  · intro e he
    simp [get_containers_as_str, he]
  · intro cs c hlist hc hstats s
    have hfail := sample_container_err env c hstats
    have hnotok := build_report_loop_err env cs c hc hfail
    simp only [get_containers_as_str, hlist]
    cases hl : build_report_loop env cs with
    | ok rs => exact absurd hl (hnotok rs)
    | ioError k => simp
    | crashed => simp
  · intro cs rs e hlist hloop he
    simp [get_containers_as_str, hlist, hloop, he]

/-- Witness for C8 instantiating each of the three failure modes on a
concrete environment. -/
theorem C8_fail_fast_witness :
    get_containers_as_str c8_env_list_fail = .ioError .connectionAborted
      ∧ get_containers_as_str c8_env_stats_fail ≠ .ok "[]"
      ∧ get_containers_as_str c8_env_encode_fail = .ioError .invalidInput := by
  refine ⟨(C8_fail_fast c8_env_list_fail).1 "connection refused" rfl, ?_, ?_⟩
  · exact (C8_fail_fast c8_env_stats_fail).2.1 [w_container "A"] (w_container "A")
      rfl (by decide) (Or.inl ⟨"connection refused", rfl⟩) "[]"
  · exact (C8_fail_fast c8_env_encode_fail).2.2 [w_container "A"] [w_report "A"]
      "encoding is failed" rfl (by decide) rfl

/-- Container descriptor for the C9 witness: its second raw name is
the empty string. -/
def c9_container : Docker.Container :=
  { Id := "web", Image := "img", Status := "up", Command := "cmd", Created := 0,
    Names := [[47, 97], []], Ports := [] }

/-- C9: a container whose raw name sequence contains an empty name
makes the normalization loop read `as_bytes()[0]` out of range, so the
whole name pass fails (panics) and `to_cosmos_container` produces no
record at all instead of passing the empty name through; with every
name non-empty the name pass is total. -/
theorem C9_empty_name_panics (c : Docker.Container) (s d : Docker.Stats)
    (ns : List (List Nat)) (h : [] ∈ c.Names) (hall : ∀ n ∈ ns, n ≠ []) :
    normalize_name ([] : List Nat) = none
  ∧ normalize_names c.Names = none
  ∧ to_cosmos_container c s d = none
  ∧ normalize_names ns = some (ns.map strip_lead) := by
  have hnn := normalize_names_none_of_mem_nil c.Names h
  refine ⟨rfl, hnn, ?_, normalize_names_eq_map ns hall⟩
  rw [to_cosmos_container_eq]
  cases compute_percpus s d with
  | none => rfl
  | some ps => simp [hnn]

/-- Witness for C9: a concrete container with names `["/a", ""]`
panics the conversion, while the non-empty list `["/a"]` normalizes. -/
theorem C9_empty_name_panics_witness :
    to_cosmos_container c9_container w_stats w_stats = none
      ∧ normalize_names [[47, 97]] = some [[97]] := by
  have h := C9_empty_name_panics c9_container w_stats w_stats [[47, 97]]
    (by decide) (by decide)
  exact ⟨h.2.2.1, h.2.2.2.trans (by decide)⟩

/-- Baseline snapshot for the C10 witness: two per-core counters. -/
def c10_baseline : Docker.Stats :=
  { network := { rx_bytes := 0, tx_bytes := 0 }
    cpu_stats := { cpu_usage := { total_usage := 0, percpu_usage := [10, 20] },
                   system_cpu_usage := 0 }
    memory_stats := { limit := 0, usage := 0 } }

/-- Advanced snapshot for the C10 witness with only one per-core
counter (shorter than the baseline's two). -/
def c10_short : Docker.Stats :=
  { network := { rx_bytes := 0, tx_bytes := 0 }
    cpu_stats := { cpu_usage := { total_usage := 0, percpu_usage := [15] },
                   system_cpu_usage := 0 }
    memory_stats := { limit := 0, usage := 0 } }

/-- Advanced snapshot for the C10 witness with three per-core counters
(longer than the baseline's two). -/
def c10_long : Docker.Stats :=
  { network := { rx_bytes := 0, tx_bytes := 0 }
    cpu_stats := { cpu_usage := { total_usage := 0, percpu_usage := [15, 25, 35] },
                   system_cpu_usage := 0 }
    memory_stats := { limit := 0, usage := 0 } }

/-- The report the source produces for `c9_container`'s sibling below
under the (baseline, longer-advanced) C10 pair: both per-core percents
are `+inf` because the system delta is zero. -/
def c10_report : Container :=
  { Id := "web", Image := "img", Status := "up", Command := "cmd", Created := 0,
    Names := [[97]], Ports := [],
    Stats :=
      { Network := { RxBytes := 0, TxBytes := 0, RxBytesDelta := 0, TxBytesDelta := 0 },
        Cpu := { TotalUtilization := F64.nan, PerCpuUtilization := [F64.inf, F64.inf] },
        Memory := { Limit := 0, Usage := 0 } } }

/-- Container descriptor for the C10 witness. -/
def c10_container : Docker.Container :=
  { Id := "web", Image := "img", Status := "up", Command := "cmd", Created := 0,
    Names := [[47, 97]], Ports := [] }

/-- C10: when the advanced snapshot's per-core sequence is shorter
than the baseline's, the per-core loop indexes the advanced sequence
out of range and the conversion fails (panics) — no truncation, no
error value; when it is equal or longer the loop succeeds and, in
general, every successfully produced record has exactly one per-core
utilization entry per baseline core. -/
theorem C10_percpu_length (c : Docker.Container) (s d : Docker.Stats) :
    (d.cpu_stats.cpu_usage.percpu_usage.length < s.cpu_stats.cpu_usage.percpu_usage.length →
      compute_percpus s d = none ∧ to_cosmos_container c s d = none)
  ∧ (s.cpu_stats.cpu_usage.percpu_usage.length ≤ d.cpu_stats.cpu_usage.percpu_usage.length →
      ∃ ps : List F64, compute_percpus s d = some ps
        ∧ ps.length = s.cpu_stats.cpu_usage.percpu_usage.length)
  ∧ (∀ r : Container, to_cosmos_container c s d = some r →
      r.Stats.Cpu.PerCpuUtilization.length = s.cpu_stats.cpu_usage.percpu_usage.length) := by
  refine ⟨?_, ?_, ?_⟩
  · intro hlt
    have hnone : compute_percpus s d = none := by
      apply collect_none_of_mem _ _ (d.cpu_stats.cpu_usage.percpu_usage.length)
      · exact List.mem_range.mpr hlt
      · have hd : d.cpu_stats.cpu_usage.percpu_usage.get?
            d.cpu_stats.cpu_usage.percpu_usage.length = none :=
          List.get?_eq_none.mpr (le_refl _)
        cases hs : s.cpu_stats.cpu_usage.percpu_usage.get?
            d.cpu_stats.cpu_usage.percpu_usage.length <;> simp [hd, hs]
    refine ⟨hnone, ?_⟩
    rw [to_cosmos_container_eq, hnone]
    rfl
  · intro hle
    obtain ⟨ps, hps, hlen⟩ := collect_some_of_all
      (fun i =>
        match s.cpu_stats.cpu_usage.percpu_usage.get? i,
              d.cpu_stats.cpu_usage.percpu_usage.get? i with
        | some val, some delayed_val =>
            some (get_cpu_percent val delayed_val
              s.cpu_stats.system_cpu_usage
              d.cpu_stats.system_cpu_usage
              s.cpu_stats.cpu_usage.percpu_usage.length)
        | _, _ => none)
      (List.range s.cpu_stats.cpu_usage.percpu_usage.length)
      (by
        intro i hi
        have hi2 := List.mem_range.mp hi
        simp only [List.get?_eq_get hi2, List.get?_eq_get (lt_of_lt_of_le hi2 hle)]
        rfl)
    exact ⟨ps, hps, by simpa using hlen⟩
  · intro r hr
    have hps := (to_cosmos_fields c s d r hr).1
    have := collect_some_length _ _ _ hps
    simpa using this

/-- Witness for C10: a shorter advanced per-core sequence panics the
conversion; an equal-or-longer one yields exactly the baseline's two
entries. -/
theorem C10_percpu_length_witness :
    to_cosmos_container c10_container c10_baseline c10_short = none
      ∧ (compute_percpus c10_baseline c10_long).map List.length = some 2
      ∧ c10_report.Stats.Cpu.PerCpuUtilization.length = 2 := by
  refine ⟨((C10_percpu_length c10_container c10_baseline c10_short).1 (by decide)).2, ?_, ?_⟩
  · obtain ⟨ps, hps, hlen⟩ :=
      (C10_percpu_length c10_container c10_baseline c10_long).2.1 (by decide)
    rw [hps]
    simpa using hlen
  · exact (C10_percpu_length c10_container c10_baseline c10_long).2.2 c10_report (by decide)

